import Mathlib

/-!
Verification of the statistical hypothesis evaluator specified for the
HighLevelProgramming2021 notebooks.

The computational cells of the notebook (Z score cell, Z-test p-value
cell, t statistic cell, t-test p-value cell, conditional_function) are
embedded as Lean definitions over the real numbers.  The scipy CDF
routines (stats.norm.cdf, stats.t.cdf) are external library code, so the
p-value cells are parametrised by the CDF function, and the properties
the specification attributes to a CDF symmetric about zero are collected
in the predicate IsSymmCDF.  The evaluator API (evaluate_z, evaluate_t,
the decision rule) exists only in the specification, so it is modelled
from the specification's words on top of the cell formulas.
-/

/-- Result record of one evaluation: test statistic and p-value.  The
specification's third field (reject) is produced by the separate decision
operation, which takes the significance level as an argument. -/
structure TestResult where
  statistic : ℝ
  p_value : ℝ

/-- Error kind of the evaluator API (specification section 7). -/
inductive EvalError where
  | InvalidInput

/-- Z score cell of the notebook: Z = abs(x0 - mu) / sigma. -/
noncomputable def Zscore (x0 mu sigma : ℝ) : ℝ := |x0 - mu| / sigma

/-- Z-test p-value cell of the notebook:
pvalue = norm.cdf(-Z) + (1 - norm.cdf(Z)), with the normal CDF passed as
the parameter Phi. -/
noncomputable def zPValue (Phi : ℝ → ℝ) (Z : ℝ) : ℝ := Phi (-Z) + (1 - Phi Z)

/-- t-test p-value cell of the notebook:
pvalue = t.cdf(T, n - 1) + (1 - t.cdf(-T, n - 1)), with the t CDF at the
fixed number of degrees of freedom passed as the parameter F. -/
noncomputable def tPValue (F : ℝ → ℝ) (T : ℝ) : ℝ := F T + (1 - F (-T))

/-- np.mean on a list of reals. -/
noncomputable def npMean (xs : List ℝ) : ℝ := xs.sum / xs.length

/-- np.var on a list of reals with the ddof parameter: mean squared
deviation from the mean, with denominator n - ddof. -/
noncomputable def npVar (xs : List ℝ) (ddof : ℕ) : ℝ :=
  ((xs.map (fun x => (x - npMean xs) ^ 2)).sum) / ((xs.length : ℝ) - (ddof : ℝ))

/-- t statistic cell of the notebook:
T = (sample_mean - mu) / (sigma / np.sqrt(n)) with
sigma = np.sqrt(np.var(samples, ddof=1)). -/
noncomputable def tStatistic (xs : List ℝ) (mu : ℝ) : ℝ :=
  (npMean xs - mu) / (Real.sqrt (npVar xs 1) / Real.sqrt (xs.length : ℝ))

/-- The t statistic exactly as the specification words it:
T = (sample mean - mu) / (s / sqrt n) with the sample standard deviation
s = sqrt of (sum of squared deviations over n - 1).  Written separately
from tStatistic so that agreement of code and specification is a theorem
rather than a definition. -/
noncomputable def spec_T (xs : List ℝ) (mu : ℝ) : ℝ :=
  (npMean xs - mu) /
    (Real.sqrt (((xs.map (fun x => (x - npMean xs) ^ 2)).sum) / ((xs.length : ℝ) - 1)) /
      Real.sqrt (xs.length : ℝ))

/-- Modelled from the spec: the properties of the reference CDFs.  The
scipy routines stats.norm.cdf and stats.t.cdf are external library code;
the specification describes them as the standard normal CDF and the
Student t CDF, both cumulative distribution functions of distributions
symmetric about zero: monotone, valued in the unit interval, and
satisfying F (-x) = 1 - F x. -/
def IsSymmCDF (F : ℝ → ℝ) : Prop :=
  Monotone F ∧ (∀ x, 0 ≤ F x) ∧ (∀ x, F x ≤ 1) ∧ (∀ x, F (-x) = 1 - F x)

/-- A concrete strictly increasing symmetric CDF with rational values at
rational points, used to instantiate theorems and counterexamples about
the p-value formulas. -/
noncomputable def ratCDFfun (x : ℝ) : ℝ := 1 / 2 + x / (2 * (1 + |x|))

/-- Modelled from the spec: the Student t CDF with 4 degrees of freedom
(the reference distribution of the notebook's 5-element t-test example,
ndof = n - 1 = 4).  For 4 degrees of freedom the Student t CDF has the
closed form 1/2 + (3/4) x - (1/4) x^3 with x = t / sqrt (t^2 + 4). -/
noncomputable def tCDF4 (t : ℝ) : ℝ :=
  1 / 2 + (3 / 4) * (t / Real.sqrt (t ^ 2 + 4)) -
    (1 / 4) * (t / Real.sqrt (t ^ 2 + 4)) ^ 3

/-- Modelled from the spec: evaluate_z(sample_mean, mu, sigma), failing
with InvalidInput when sigma is not positive; the statistic and p-value
are those of the notebook's Z score and Z-test p-value cells. -/
noncomputable def evaluate_z (Phi : ℝ → ℝ) (sample_mean mu sigma : ℝ) :
    Except EvalError TestResult :=
  if sigma ≤ 0 then Except.error EvalError.InvalidInput
  else Except.ok ⟨Zscore sample_mean mu sigma, zPValue Phi (Zscore sample_mean mu sigma)⟩

/-- Modelled from the spec: evaluate_t(sample, mu), failing with
InvalidInput when the sample has fewer than two elements; the statistic
and p-value are those of the notebook's t statistic and t-test p-value
cells, with the t CDF family passed as Ft (indexed by degrees of
freedom, used at n - 1). -/
noncomputable def evaluate_t (Ft : ℕ → ℝ → ℝ) (sample : List ℝ) (mu : ℝ) :
    Except EvalError TestResult :=
  if sample.length < 2 then Except.error EvalError.InvalidInput
  else Except.ok ⟨tStatistic sample mu,
    tPValue (Ft (sample.length - 1)) (tStatistic sample mu)⟩

/-- Modelled from the spec: decide(result, alpha), true exactly when the
p-value is below the significance level alpha. -/
def decideTest (r : TestResult) (alpha : ℝ) : Prop := r.p_value < alpha

/-- The decision rule narrated in the notebook's t-test conclusion cell:
reject only when the p-value is below alpha / 2. -/
def decideCell (p alpha : ℝ) : Prop := p < alpha / 2

/-- conditional_function from the notebook's numerical-integration cell,
with its five guards in source order; Python's fall-through (returning
None) is the final none. -/
noncomputable def conditional_function (x : ℝ) : Option ℝ :=
  if x < 0 then some (Real.exp x)
  else if x < 3 then some (x ^ 2)
  else if x = 3 then some 0
  else if x > 3 then some (Real.sqrt x)
  else if x ≥ 5 then some (Real.exp (-x))
  else none

/-- conditional_function with the unreachable x ≥ 5 branch and the
unreachable fall-through removed: the first four guards are exhaustive. -/
noncomputable def conditional_function_reduced (x : ℝ) : Option ℝ :=
  if x < 0 then some (Real.exp x)
  else if x < 3 then some (x ^ 2)
  else if x = 3 then some 0
  else some (Real.sqrt x)

/-- The input sample of the notebook's t-test example. -/
noncomputable def s5 : List ℝ := [1035, 1050, 1020, 1055, 1046]

/-! ### Helper lemmas -/

theorem ratCDFfun_eq (x : ℝ) : ratCDFfun x = (1 + |x| + x) / (2 * (1 + |x|)) := by
  have hx : (0:ℝ) < 1 + |x| := by positivity
  unfold ratCDFfun
  field_simp

theorem ratCDF_isSymmCDF : IsSymmCDF ratCDFfun := by
  refine ⟨?_, ?_, ?_, ?_⟩
  · intro x y hxy
    have hx : (0:ℝ) < 1 + |x| := by positivity
    have hy : (0:ℝ) < 1 + |y| := by positivity
    unfold ratCDFfun
    have key : x / (2 * (1 + |x|)) ≤ y / (2 * (1 + |y|)) := by
      rw [div_le_div_iff₀ (by positivity) (by positivity)]
      rcases abs_cases x with ⟨hx1, hx2⟩ | ⟨hx1, hx2⟩ <;>
        rcases abs_cases y with ⟨hy1, hy2⟩ | ⟨hy1, hy2⟩ <;>
        rw [hx1, hy1] <;> nlinarith
    linarith
  · intro x
    rw [ratCDFfun_eq]
    have h1 : 0 ≤ 1 + |x| + x := by
      have := neg_abs_le x
      linarith
    positivity
  · intro x
    rw [ratCDFfun_eq]
    have hx : (0:ℝ) < 2 * (1 + |x|) := by positivity
    rw [div_le_one hx]
    have := le_abs_self x
    linarith
  · intro x
    unfold ratCDFfun
    have hx : (0:ℝ) < 1 + |x| := by positivity
    rw [abs_neg]
    field_simp
    ring

theorem ratCDFfun_zero : ratCDFfun 0 = 1 / 2 := by
  unfold ratCDFfun
  norm_num

theorem ratCDFfun_one : ratCDFfun 1 = 3 / 4 := by
  unfold ratCDFfun
  rw [abs_one]
  norm_num

theorem ratCDFfun_neg_one : ratCDFfun (-1) = 1 / 4 := by
  unfold ratCDFfun
  rw [abs_neg, abs_one]
  norm_num

theorem ratCDFfun_two : ratCDFfun 2 = 5 / 6 := by
  unfold ratCDFfun
  rw [abs_of_nonneg (by norm_num : (0:ℝ) ≤ 2)]
  norm_num

theorem ratCDFfun_neg_two : ratCDFfun (-2) = 1 / 6 := by
  unfold ratCDFfun
  rw [abs_neg, abs_of_nonneg (by norm_num : (0:ℝ) ≤ 2)]
  norm_num

theorem zPValue_at_zero (Phi : ℝ → ℝ) : zPValue Phi 0 = 1 := by
  unfold zPValue
  rw [neg_zero]
  ring

theorem tPValue_at_zero (F : ℝ → ℝ) : tPValue F 0 = 1 := by
  unfold tPValue
  rw [neg_zero]
  ring

/-! ### Claim C5 (code_bug) -/

/-- Claim C5: decide(result, alpha) is true iff p_value < alpha, with the
threshold alpha itself and not alpha / 2.  The specification's decide
rejects at p_value = 0.06, alpha = 0.1, while the notebook's conclusion
cell, which compares the two-sided p-value against alpha / 2, retains
there — contradicting the notebook's own introduction, which rejects
whenever the p-value is below the significance level. -/
theorem C5_divergence :
    decideTest ⟨2, 3 / 50⟩ (1 / 10) ∧ ¬ decideCell (3 / 50) (1 / 10) := by
  constructor
  · show (3:ℝ) / 50 < 1 / 10
    norm_num
  · show ¬ ((3:ℝ) / 50 < 1 / 10 / 2)
    norm_num

/-! ### Claim C6 (error handling) -/

/-- Claim C6: evaluate_t fails with InvalidInput on every sample of size
0 or 1, and evaluate_z fails with InvalidInput for every sigma ≤ 0; in
both failure cases no TestResult is produced. -/
theorem C6_invalid_input (Phi : ℝ → ℝ) (Ft : ℕ → ℝ → ℝ) (sample : List ℝ)
    (m mu nu sigma : ℝ) (hn : sample.length ≤ 1) (hs : sigma ≤ 0) :
    evaluate_t Ft sample nu = Except.error EvalError.InvalidInput ∧
    evaluate_z Phi m mu sigma = Except.error EvalError.InvalidInput := by
  constructor
  · unfold evaluate_t
    rw [if_pos (by omega)]
  · unfold evaluate_z
    rw [if_pos hs]

theorem C6_invalid_input_witness :
    ([1] : List ℝ).length ≤ 1 ∧ (0:ℝ) ≤ 0 ∧
    (evaluate_t (fun _ _ => 0) [1] 0 = Except.error EvalError.InvalidInput ∧
      evaluate_z (fun _ => 0) 1 0 0 = Except.error EvalError.InvalidInput) :=
  ⟨by simp, le_refl 0,
    C6_invalid_input (fun _ => 0) (fun _ _ => 0) [1] 1 0 0 0 (by simp) (le_refl 0)⟩

/-! ### Claim C7 (zero statistic) -/

/-- Claim C7: whenever the sample mean equals mu (with sigma positive
for the Z test and at least two sample elements for the t test), the
computed statistic is exactly 0 and the two-sided p-value is exactly 1,
for any CDF whatsoever. -/
theorem C7_zero_statistic (Phi : ℝ → ℝ) (Ft : ℕ → ℝ → ℝ) (xs : List ℝ)
    (mu sigma : ℝ) (hs : 0 < sigma) (hm : npMean xs = mu) (hn : 2 ≤ xs.length) :
    evaluate_z Phi mu mu sigma = Except.ok ⟨0, 1⟩ ∧
    evaluate_t Ft xs mu = Except.ok ⟨0, 1⟩ := by
  have hZ : Zscore mu mu sigma = 0 := by
    unfold Zscore
    simp
  have hT : tStatistic xs mu = 0 := by
    unfold tStatistic
    rw [hm, sub_self, zero_div]
  constructor
  · unfold evaluate_z
    rw [if_neg (not_le.mpr hs), hZ, zPValue_at_zero]
  · unfold evaluate_t
    rw [if_neg (by omega), hT, tPValue_at_zero]

theorem C7_zero_statistic_witness :
    (0:ℝ) < 1 ∧ npMean [1, 3] = 2 ∧ 2 ≤ ([1, 3] : List ℝ).length ∧
    (evaluate_z (fun _ => 0) 2 2 1 = Except.ok ⟨0, 1⟩ ∧
      evaluate_t (fun _ _ => 0) [1, 3] 2 = Except.ok ⟨0, 1⟩) :=
  ⟨by norm_num, by norm_num [npMean], by simp,
    C7_zero_statistic (fun _ => 0) (fun _ _ => 0) [1, 3] 2 1 (by norm_num)
      (by norm_num [npMean]) (by simp)⟩

/-! ### Claim C2 (Z statistic uses absolute value) -/

/-- Claim C2: the code's Z score is abs(x0 - mu) / sigma, so the value
evaluate_z returns as the statistic agrees with the signed quantity
(x0 - mu) / sigma of the specification exactly when the sample mean is
at least mu. -/
theorem C2_abs_vs_signed (Phi : ℝ → ℝ) (x0 mu sigma : ℝ) (hs : 0 < sigma) :
    evaluate_z Phi x0 mu sigma =
      Except.ok ⟨Zscore x0 mu sigma, zPValue Phi (Zscore x0 mu sigma)⟩ ∧
    (Zscore x0 mu sigma = (x0 - mu) / sigma ↔ mu ≤ x0) := by
  constructor
  · unfold evaluate_z
    rw [if_neg (not_le.mpr hs)]
  · unfold Zscore
    constructor
    · intro h
      have hne : sigma ≠ 0 := ne_of_gt hs
      have h2 : |x0 - mu| = x0 - mu := by
        have := congrArg (fun y => y * sigma) h
        simpa [div_mul_cancel₀, hne] using this
      have := abs_eq_self.mp h2
      linarith
    · intro h
      rw [abs_of_nonneg (by linarith)]

theorem C2_abs_vs_signed_witness :
    (0:ℝ) < 1 ∧
    (evaluate_z ratCDFfun 2 1 1 =
        Except.ok ⟨Zscore 2 1 1, zPValue ratCDFfun (Zscore 2 1 1)⟩ ∧
      (Zscore 2 1 1 = (2 - 1) / 1 ↔ (1:ℝ) ≤ 2)) :=
  ⟨by norm_num, C2_abs_vs_signed ratCDFfun 2 1 1 (by norm_num)⟩

/-! ### Claim C10 (unreachable branch) -/

theorem conditional_function_eq_reduced (x : ℝ) :
    conditional_function x = conditional_function_reduced x := by
  unfold conditional_function conditional_function_reduced
  rcases lt_trichotomy x 3 with h3 | h3 | h3
  · by_cases h0 : x < 0 <;> simp [h0, h3]
  · simp [h3]
  · have h0 : ¬ x < 0 := by linarith
    have h3l : ¬ x < 3 := by linarith
    have h3e : ¬ x = 3 := by linarith
    simp [h0, h3l, h3e, h3]

/-- Claim C10: the x ≥ 5 branch of conditional_function is unreachable —
the function always equals its four-branch reduction, which never
evaluates exp(-x) — and in particular conditional_function returns
sqrt x for every x ≥ 5. -/
theorem C10_unreachable_branch (x : ℝ) :
    conditional_function x = conditional_function_reduced x ∧
    (5 ≤ x → conditional_function x = some (Real.sqrt x)) := by
  refine ⟨conditional_function_eq_reduced x, fun h5 => ?_⟩
  rw [conditional_function_eq_reduced x]
  unfold conditional_function_reduced
  have h0 : ¬ x < 0 := by linarith
  have h3l : ¬ x < 3 := by linarith
  have h3e : ¬ x = 3 := by intro h; rw [h] at h5; linarith
  simp [h0, h3l, h3e]

theorem C10_unreachable_branch_witness :
    conditional_function 5 = some (Real.sqrt 5) :=
  (C10_unreachable_branch 5).2 (by norm_num)

/-! ### Claim C3 (two-sided Z p-value identity) -/

/-- Claim C3 counterexample: for the strictly increasing symmetric CDF
ratCDFfun, the code's expression Phi(-Z) + (1 - Phi Z) at Z = -1 does
not equal 2 * (1 - Phi |Z|): the left side is 3/2 and the right side is
1/2, so the extension of the identity to negative Z fails. -/
theorem C3_negative_Z_cex :
    zPValue ratCDFfun (-1) ≠ 2 * (1 - ratCDFfun |(-1 : ℝ)|) := by
  unfold zPValue
  rw [neg_neg, abs_neg, abs_one, ratCDFfun_one, ratCDFfun_neg_one]
  norm_num

/-- Claim C3 (amended): for every CDF symmetric about zero and every
Z ≥ 0 — all statistics the Z score cell produces, since it takes an
absolute value — the code's expression Phi(-Z) + (1 - Phi Z) equals the
specification's 2 * (1 - Phi |Z|); for Z < 0 the two sides differ
whenever Phi |Z| is not 1/2. -/
theorem C3_two_sided_identity (F : ℝ → ℝ) (hF : IsSymmCDF F) (Z : ℝ) (hZ : 0 ≤ Z) :
    zPValue F Z = 2 * (1 - F |Z|) := by
  obtain ⟨-, -, -, hsym⟩ := hF
  unfold zPValue
  rw [abs_of_nonneg hZ, hsym Z]
  ring

theorem C3_two_sided_identity_witness :
    IsSymmCDF ratCDFfun ∧ (0:ℝ) ≤ 1 ∧
    zPValue ratCDFfun 1 = 2 * (1 - ratCDFfun |(1:ℝ)|) :=
  ⟨ratCDF_isSymmCDF, by norm_num,
    C3_two_sided_identity ratCDFfun ratCDF_isSymmCDF 1 (by norm_num)⟩

/-! ### Claim C1 (p-value range) -/

theorem npMean_pair : npMean [0, 2] = 1 := by
  norm_num [npMean, List.sum_cons, List.sum_nil]

theorem tStatistic_pair : tStatistic [0, 2] (-1) = 2 := by
  have hv : npVar [0, 2] 1 = 2 := by
    unfold npVar
    rw [npMean_pair]
    norm_num [List.sum_cons, List.sum_nil]
  unfold tStatistic
  rw [npMean_pair, hv]
  have h2 : ((([0, 2] : List ℝ).length : ℝ)) = 2 := by norm_num
  rw [h2, div_self (ne_of_gt (Real.sqrt_pos.mpr (by norm_num)))]
  norm_num

theorem tPValue_ratCDF_two : tPValue ratCDFfun 2 = 5 / 3 := by
  unfold tPValue
  rw [ratCDFfun_two, ratCDFfun_neg_two]
  norm_num

/-- Claim C1 counterexample: an evaluate_t evaluation on a valid input
(two sample elements, nonzero sample variance) whose p-value field is
5/3, outside the unit interval: the t-test cell formula
F(T) + (1 - F(-T)) equals 2 F(T), which exceeds 1 whenever the statistic
T is positive (here the sample mean 1 exceeds mu = -1, giving T = 2). -/
theorem C1_pvalue_above_one :
    evaluate_t (fun _ => ratCDFfun) [0, 2] (-1) = Except.ok ⟨2, 5 / 3⟩ ∧
    ¬ ((5:ℝ) / 3 ≤ 1) := by
  constructor
  · unfold evaluate_t
    rw [if_neg (by norm_num)]
    simp [tStatistic_pair, tPValue_ratCDF_two]
  · norm_num

/-- Claim C1 (amended): for every CDF symmetric about zero, the Z-test
p-value lies in the unit interval for every nonnegative statistic — and
the Z score cell only produces nonnegative statistics — while the t-test
p-value lies in the unit interval exactly on nonpositive statistics; for
positive T it equals 2 F(T) > 1. -/
theorem C1_pvalue_range (F : ℝ → ℝ) (hF : IsSymmCDF F) (x0 mu sigma T : ℝ)
    (hs : 0 < sigma) (hT : T ≤ 0) :
    0 ≤ Zscore x0 mu sigma ∧
    (0 ≤ zPValue F (Zscore x0 mu sigma) ∧ zPValue F (Zscore x0 mu sigma) ≤ 1) ∧
    (0 ≤ tPValue F T ∧ tPValue F T ≤ 1) := by
  obtain ⟨hmono, h0, h1, -⟩ := hF
  have hZ : 0 ≤ Zscore x0 mu sigma := div_nonneg (abs_nonneg _) hs.le
  refine ⟨hZ, ⟨?_, ?_⟩, ?_, ?_⟩
  · unfold zPValue
    have := h0 (-(Zscore x0 mu sigma))
    have := h1 (Zscore x0 mu sigma)
    linarith
  · unfold zPValue
    have := hmono (neg_le_self hZ)
    linarith
  · unfold tPValue
    have := h0 T
    have := h1 (-T)
    linarith
  · unfold tPValue
    have hTT : T ≤ -T := by linarith
    have := hmono hTT
    linarith

theorem C1_pvalue_range_witness :
    IsSymmCDF ratCDFfun ∧ (0:ℝ) < 1 ∧ (-1:ℝ) ≤ 0 ∧
    (0 ≤ Zscore 2 1 1 ∧
      (0 ≤ zPValue ratCDFfun (Zscore 2 1 1) ∧ zPValue ratCDFfun (Zscore 2 1 1) ≤ 1) ∧
      (0 ≤ tPValue ratCDFfun (-1) ∧ tPValue ratCDFfun (-1) ≤ 1)) :=
  ⟨ratCDF_isSymmCDF, by norm_num, by norm_num,
    C1_pvalue_range ratCDFfun ratCDF_isSymmCDF 2 1 1 (-1) (by norm_num) (by norm_num)⟩

/-! ### Claim C8 (monotonicity in the statistic) -/

/-- Claim C8 counterexample: with the symmetric CDF ratCDFfun, the
statistics 0 and 1 satisfy |0| ≤ |1| yet the t-test cell p-value at 0
(namely 1) is strictly below the p-value at 1 (namely 3/2), so the
p-value is not non-increasing in the absolute statistic. -/
theorem C8_not_monotone_cex :
    |(0:ℝ)| ≤ |(1:ℝ)| ∧ tPValue ratCDFfun 0 < tPValue ratCDFfun 1 := by
  constructor
  · simp
  · rw [tPValue_at_zero]
    unfold tPValue
    rw [ratCDFfun_one, ratCDFfun_neg_one]
    norm_num

/-- Claim C8 (amended): for every CDF symmetric about zero and statistics
on the side the code produces, the p-value is non-increasing in the
absolute statistic: for 0 ≤ a ≤ b the Z-test cell p-value at b is at most
the one at a, and the t-test cell p-value at -b is at most the one at -a. -/
theorem C8_monotone (F : ℝ → ℝ) (hF : IsSymmCDF F) (a b : ℝ)
    (h0 : 0 ≤ a) (hab : a ≤ b) :
    zPValue F b ≤ zPValue F a ∧ tPValue F (-b) ≤ tPValue F (-a) := by
  obtain ⟨hmono, -, -, -⟩ := hF
  have h1 : F (-b) ≤ F (-a) := hmono (neg_le_neg hab)
  have h2 : F a ≤ F b := hmono hab
  constructor
  · unfold zPValue
    linarith
  · unfold tPValue
    rw [neg_neg, neg_neg]
    linarith

theorem C8_monotone_witness :
    IsSymmCDF ratCDFfun ∧ (0:ℝ) ≤ 0 ∧ (0:ℝ) ≤ 1 ∧
    (zPValue ratCDFfun 1 ≤ zPValue ratCDFfun 0 ∧
      tPValue ratCDFfun (-1) ≤ tPValue ratCDFfun (-0)) :=
  ⟨ratCDF_isSymmCDF, le_refl 0, by norm_num,
    C8_monotone ratCDFfun ratCDF_isSymmCDF 0 1 (le_refl 0) (by norm_num)⟩

/-! ### Claim C4 (t statistic formula) -/

/-- Claim C4: for every sample with at least two elements, the t
statistic cell computes exactly the specification's formula — sample
mean, sample standard deviation with denominator n - 1 (ddof = 1), and
T = (sample mean - mu) / (s / sqrt n) — and evaluate_t consults the
reference t CDF at n - 1 degrees of freedom. -/
theorem C4_t_formula (Ft : ℕ → ℝ → ℝ) (xs : List ℝ) (mu : ℝ) (hn : 2 ≤ xs.length) :
    tStatistic xs mu = spec_T xs mu ∧
    npVar xs 1 = ((xs.map (fun x => (x - npMean xs) ^ 2)).sum) / ((xs.length : ℝ) - 1) ∧
    evaluate_t Ft xs mu =
      Except.ok ⟨tStatistic xs mu, tPValue (Ft (xs.length - 1)) (tStatistic xs mu)⟩ := by
  refine ⟨?_, ?_, ?_⟩
  · unfold tStatistic spec_T npVar
    norm_num
  · unfold npVar
    norm_num
  · unfold evaluate_t
    rw [if_neg (by omega)]

theorem C4_t_formula_witness :
    2 ≤ ([0, 2] : List ℝ).length ∧
    (tStatistic [0, 2] 0 = spec_T [0, 2] 0 ∧
      npVar [0, 2] 1 =
        ((([0, 2] : List ℝ).map (fun x => (x - npMean [0, 2]) ^ 2)).sum) /
          ((([0, 2] : List ℝ).length : ℝ) - 1) ∧
      evaluate_t (fun _ _ => (0:ℝ)) [0, 2] 0 =
        Except.ok ⟨tStatistic [0, 2] 0,
          tPValue ((fun _ _ => (0:ℝ)) (([0, 2] : List ℝ).length - 1)) (tStatistic [0, 2] 0)⟩) :=
  ⟨by simp, C4_t_formula (fun _ _ => (0:ℝ)) [0, 2] 0 (by simp)⟩

/-! ### Claim C9 (concrete t-test scenario) -/

theorem s5_length : s5.length = 5 := by
  unfold s5
  simp

theorem s5_mean : npMean s5 = 5206 / 5 := by
  unfold npMean s5
  norm_num [List.sum_cons, List.sum_nil, List.length_cons, List.length_nil]

theorem s5_var : npVar s5 1 = 1947 / 10 := by
  unfold npVar
  simp only [s5_mean]
  unfold s5
  norm_num [List.sum_cons, List.sum_nil, List.map_cons, List.map_nil,
    List.length_cons, List.length_nil]

theorem s5_T_eq : tStatistic s5 1060 = -(94 / 5) / Real.sqrt (1947 / 50) := by
  unfold tStatistic
  rw [s5_mean, s5_var, s5_length]
  have hsq : Real.sqrt (1947 / 10) / Real.sqrt ((5:ℕ) : ℝ) = Real.sqrt (1947 / 50) := by
    rw [show (((5:ℕ)) : ℝ) = 5 by norm_num]
    rw [← Real.sqrt_div (by norm_num : (0:ℝ) ≤ 1947 / 10) 5]
    norm_num
  rw [hsq]
  norm_num

theorem s5_T_bounds :
    -(31 / 10) < tStatistic s5 1060 ∧ tStatistic s5 1060 < -(29 / 10) := by
  rw [s5_T_eq]
  have hd0 : 0 < Real.sqrt (1947 / 50) := Real.sqrt_pos.mpr (by norm_num)
  have hd2 : Real.sqrt (1947 / 50) ^ 2 = 1947 / 50 := Real.sq_sqrt (by norm_num)
  have hub : Real.sqrt (1947 / 50) ≤ 6241 / 1000 := by
    nlinarith [hd2, sq_nonneg (Real.sqrt (1947 / 50) - 6241 / 1000)]
  have hlb : 6239 / 1000 ≤ Real.sqrt (1947 / 50) := by
    nlinarith [hd2, mul_nonneg hd0.le (sub_nonneg.mpr hub)]
  constructor
  · rw [lt_div_iff₀ hd0]
    nlinarith [hlb]
  · rw [div_lt_iff₀ hd0]
    nlinarith [hub]

theorem s5_T_sq : (tStatistic s5 1060) ^ 2 = 17672 / 1947 := by
  rw [s5_T_eq]
  have hd2 : Real.sqrt (1947 / 50) ^ 2 = 1947 / 50 := Real.sq_sqrt (by norm_num)
  rw [div_pow, hd2]
  norm_num

theorem tCDF4_neg (t : ℝ) : tCDF4 (-t) = 1 - tCDF4 t := by
  unfold tCDF4
  have h : (-t) ^ 2 = t ^ 2 := by ring
  rw [h, neg_div]
  ring

theorem s5_pvalue_lt : tPValue tCDF4 (tStatistic s5 1060) < 1 / 20 := by
  have hTub := s5_T_bounds.2
  have key : tCDF4 (tStatistic s5 1060) < 1 / 40 := by
    set T := tStatistic s5 1060 with hTdef
    have hT2 : T ^ 2 = 17672 / 1947 := s5_T_sq
    have hS0 : 0 < Real.sqrt (T ^ 2 + 4) := Real.sqrt_pos.mpr (by positivity)
    have hS2 : Real.sqrt (T ^ 2 + 4) ^ 2 = T ^ 2 + 4 := Real.sq_sqrt (by positivity)
    set u := T / Real.sqrt (T ^ 2 + 4) with hudef
    have hu2 : u ^ 2 = 4418 / 6365 := by
      rw [hudef, div_pow, hS2, hT2]
      norm_num
    have hun : u < 0 := div_neg_of_neg_of_pos (by linarith) hS0
    have hu3 : u ^ 3 = (4418 / 6365) * u := by
      have h33 : u ^ 3 = u ^ 2 * u := by ring
      rw [h33, hu2]
    have huc : u < -(24187 / 29354) := by
      by_contra hcon
      push_neg at hcon
      nlinarith [mul_nonneg (by linarith : (0:ℝ) ≤ u + 24187 / 29354)
        (by linarith : (0:ℝ) ≤ -u), hu2]
    have hexp : tCDF4 T = 1 / 2 + 3 / 4 * u - 1 / 4 * u ^ 3 := by
      rw [hudef]
      rfl
    rw [hexp, hu3]
    linarith
  unfold tPValue
  rw [tCDF4_neg]
  linarith

/-- Claim C9 counterexample: on the notebook's t-test input
(sample s5 = [1035, 1050, 1020, 1055, 1046], mu = 1060) the statistic is
below -2.9 — not approximately -2.33 — and the two-sided p-value under
the 4-degrees-of-freedom Student t CDF is NOT greater than 0.05, so the
decision at alpha = 0.05 rejects rather than retains. -/
theorem C9_scenario_cex :
    tStatistic s5 1060 < -(29 / 10) ∧
    ¬ ((1:ℝ) / 20 < tPValue tCDF4 (tStatistic s5 1060)) :=
  ⟨s5_T_bounds.2, not_lt.mpr (le_of_lt s5_pvalue_lt)⟩

/-- Claim C9 (amended): on sample s5 with mu = 1060, evaluate_t yields
sample mean 1041.2 with n = 5, sample variance with denominator n - 1
(ddof = 1), statistic T between -3.1 and -2.9 (approximately -3.01), a
two-sided p-value below 0.05, and the decision at alpha = 0.05 rejects
the null hypothesis (the notebook retains only because its conclusion
cell compares against alpha / 2). -/
theorem C9_scenario :
    npMean s5 = 5206 / 5 ∧ s5.length = 5 ∧
    npVar s5 1 = ((s5.map (fun x => (x - npMean s5) ^ 2)).sum) / ((5:ℝ) - 1) ∧
    (-(31 / 10) < tStatistic s5 1060 ∧ tStatistic s5 1060 < -(29 / 10)) ∧
    tPValue tCDF4 (tStatistic s5 1060) < 1 / 20 ∧
    decideTest ⟨tStatistic s5 1060, tPValue tCDF4 (tStatistic s5 1060)⟩ (1 / 20) := by
  refine ⟨s5_mean, s5_length, ?_, s5_T_bounds, s5_pvalue_lt, s5_pvalue_lt⟩
  unfold npVar
  rw [s5_length]
  norm_num
